import Mathlib

/-!
A shallow embedding of the Salesforce MCP server's client layer
(`salesforce_mcp/client.py`, `salesforce_mcp/auth.py`,
`salesforce_mcp/exceptions.py`) together with theorems about its
error-classification, retry, rate-limiting, CSV-serialization and
authentication behaviour.

Modelling conventions:
- Python floats (rate limiter token counts, timestamps) are modelled as `ℚ`;
  `datetime` values as integer timestamps in seconds.
- Python `None`-able attributes are `Option`s; Python truthiness of an
  `Optional[str]` (`not self.access_token`) is modelled explicitly
  (`None` and `""` are both falsy).
- Exceptions are modelled as explicit result constructors
  (`Except`, or dedicated outcome types); an uncaught exception crossing the
  client boundary is a distinguished constructor, not an `SfError`.
- The wall clock enters as an explicit `elapsed`/`now` argument.
-/

/-- JSON values, standing in for the Python dict/list/str/int/bool/None
values that appear in record payloads and error bodies. -/
inductive Json where
  | null
  | str (s : String)
  | int (n : ℤ)
  | bool (b : Bool)
  | arr (elems : List Json)
  | obj (fields : List (String × Json))

/-- One lowercase hex digit, as produced by Python's `json` escapes. -/
def hexDigit (n : ℕ) : Char :=
  if n < 10 then Char.ofNat (48 + n) else Char.ofNat (87 + n % 16)

/-- Four lowercase hex digits (the `XXXX` of a `\uXXXX` escape). -/
def hex4 (n : ℕ) : String :=
  String.mk [hexDigit (n / 4096 % 16), hexDigit (n / 256 % 16),
             hexDigit (n / 16 % 16), hexDigit (n % 16)]

/-- Escape of a single character inside a JSON string literal, following
`json.dumps` with its default `ensure_ascii=True`: printable ASCII other than
quote and backslash is kept, everything else is escaped (`\uXXXX`, with a
surrogate pair above the BMP). -/
def escapeChar (c : Char) : String :=
  if c = '"' then "\\\""
  else if c = '\\' then "\\\\"
  else if c = '\n' then "\\n"
  else if c = '\t' then "\\t"
  else if c = '\r' then "\\r"
  else if c.toNat = 8 then "\\b"
  else if c.toNat = 12 then "\\f"
  else if c.toNat < 32 then "\\u" ++ hex4 c.toNat
  else if c.toNat < 127 then String.mk [c]
  else if c.toNat < 65536 then "\\u" ++ hex4 c.toNat
  else
    "\\u" ++ hex4 (55296 + (c.toNat - 65536) / 1024) ++
    "\\u" ++ hex4 (56320 + (c.toNat - 65536) % 1024)

/-- Body of a JSON string literal under `json.dumps` escaping. -/
def jsonEscape (s : String) : String :=
  String.join (s.data.map escapeChar)

mutual

/-- `json.dumps` with Python's default separators `", "` and `": "`,
as used by `_records_to_csv` for dict/list field values. -/
def Json.dumps : Json → String
  | .null => "null"
  | .str s => "\"" ++ jsonEscape s ++ "\""
  | .int n => toString n
  | .bool b => if b then "true" else "false"
  | .arr elems => "[" ++ String.intercalate ", " (Json.dumpsArr elems) ++ "]"
  | .obj fields =>
      "\x7b" ++ String.intercalate ", " (Json.dumpsObj fields) ++ "\x7d"

/-- Serialized elements of a JSON array, in order. -/
def Json.dumpsArr : List Json → List String
  | [] => []
  | x :: xs => Json.dumps x :: Json.dumpsArr xs

/-- Serialized `"key": value` entries of a JSON object, in order. -/
def Json.dumpsObj : List (String × Json) → List String
  | [] => []
  | (k, v) :: fs =>
      ("\"" ++ jsonEscape k ++ "\": " ++ Json.dumps v) :: Json.dumpsObj fs

end

/-- A record, i.e. a Python dict with string keys (keys unique,
insertion-ordered, as in a Python dict literal). -/
abbrev Record := List (String × Json)

/-- Code-point lexicographic comparison of character lists — the string
order Python's `sorted` uses on the field names. -/
def charListLe : List Char → List Char → Bool
  | [], _ => true
  | _ :: _, [] => false
  | a :: as, b :: bs =>
      if a < b then true else if b < a then false else charListLe as bs

/-- Code-point lexicographic `≤` on strings (Python's string comparison). -/
def strLe (a b : String) : Bool := charListLe a.data b.data

/-- The union of all field names over a batch of records, in fold order with
duplicates removed — the contents of the Python `set` built by
`_records_to_csv` (lines 305–307 of `client.py`). -/
def recordKeys (records : List Record) : List String :=
  (records.foldl (fun acc r => acc ++ r.map Prod.fst) []).dedup

/-- `sorted(fields)`: the distinct field names in code-point lexicographic
order (`client.py` line 308). -/
def sortedFields (records : List Record) : List String :=
  List.insertionSort (fun a b => strLe a b = true) (recordKeys records)

/-- Rendering of one field value in a CSV cell (`client.py` lines 315–320):
a missing key yields `record.get(field, "")` = `""`; `None` becomes `""`;
dicts and lists go through `json.dumps`; other values through `str()`. -/
def renderValue : Option Json → String
  | none => ""
  | some .null => ""
  | some (.obj fs) => Json.dumps (.obj fs)
  | some (.arr xs) => Json.dumps (.arr xs)
  | some (.str s) => s
  | some (.int n) => toString n
  | some (.bool b) => if b then "True" else "False"

/-- One CSV data row: the record's values in the given field order,
comma-joined (`client.py` lines 312–321). -/
def csvRow (fields : List String) (r : Record) : String :=
  String.intercalate "," (fields.map (fun f => renderValue (r.lookup f)))

/-- `SalesforceClient._records_to_csv` (`client.py` lines 299–323): empty
input gives `""`; otherwise a header of the sorted distinct field names
followed by one row per record in input order, newline-joined. -/
def recordsToCsv (records : List Record) : String :=
  if records.isEmpty then ""
  else
    String.intercalate "\n"
      (String.intercalate "," (sortedFields records) ::
        records.map (csvRow (sortedFields records)))

/-- First example record of the spec's CSV test vector. -/
def recJohn : Record :=
  [("FirstName", .str "John"), ("LastName", .str "Doe"),
   ("Email", .str "john@example.com")]

/-- Second example record of the spec's CSV test vector. -/
def recJane : Record :=
  [("FirstName", .str "Jane"), ("LastName", .str "Smith"),
   ("Email", .str "jane@example.com")]

/-- The spec's two-record CSV example batch. -/
def exampleRecords : List Record := [recJohn, recJane]

/-- `charListLe` decides the negation of the core lexicographic `List.lt`
(with the arguments swapped), i.e. it is the boolean `≤` on `List Char`. -/
theorem charListLe_iff (as : List Char) :
    ∀ bs : List Char, charListLe as bs = true ↔ ¬ List.lt bs as := by
  induction as with
  | nil =>
    intro bs
    constructor
    · intro _ h; nomatch h
    · intro _; rfl
  | cons a as ih =>
    intro bs
    cases bs with
    | nil =>
      constructor
      · intro h; nomatch h
      · intro h; exact absurd (List.lt.nil a as) h
    | cons b bs =>
      show (if a < b then true else if b < a then false else charListLe as bs) = true ↔ _
      rcases lt_trichotomy a b with hab | hab | hab
      · rw [if_pos hab]
        constructor
        · intro _ hlt
          cases hlt with
          | head _ _ h' => exact absurd hab (asymm h')
          | tail h₁ h₂ h₃ => exact h₂ hab
        · intro _; rfl
      · subst hab
        rw [if_neg (lt_irrefl a), if_neg (lt_irrefl a), ih bs]
        constructor
        · intro h hlt
          cases hlt with
          | head _ _ h' => exact absurd h' (lt_irrefl a)
          | tail h₁ h₂ h₃ => exact h h₃
        · intro h hlt
          exact h (List.lt.tail (lt_irrefl a) (lt_irrefl a) hlt)
      · rw [if_neg (asymm hab), if_pos hab]
        constructor
        · intro h; nomatch h
        · intro h; exact absurd (List.lt.head bs as hab) h

/-- `strLe` is the (Mathlib) string order: boolean code-point comparison
agrees with `≤` on `String`. -/
theorem strLe_iff (a b : String) : strLe a b = true ↔ a ≤ b := by
  constructor
  · intro hle
    show ¬ b < a
    intro hba
    exact (charListLe_iff a.data b.data).1 hle
      ((List.lt_iff_lex_lt b.data a.data).2 (String.lt_iff_toList_lt.1 hba))
  · intro hab
    exact (charListLe_iff a.data b.data).2
      (fun hlt => hab (String.lt_iff_toList_lt.2 ((List.lt_iff_lex_lt b.data a.data).1 hlt)))

/-- Membership in the folded key union of `recordKeys`. -/
theorem mem_foldKeys (records : List Record) :
    ∀ (acc : List String) (k : String),
      (k ∈ records.foldl (fun acc r => acc ++ r.map Prod.fst) acc ↔
        k ∈ acc ∨ ∃ r ∈ records, k ∈ r.map Prod.fst) := by
  induction records with
  | nil => intro acc k; simp
  | cons r rs ih =>
    intro acc k
    simp only [List.foldl_cons, ih, List.mem_append, List.mem_cons]
    constructor
    · rintro (⟨h | h⟩ | ⟨r', hr', hk⟩)
      · exact Or.inl h
      · exact Or.inr ⟨r, Or.inl rfl, h⟩
      · exact Or.inr ⟨r', Or.inr hr', hk⟩
    · rintro (h | ⟨r', h' | h', hk⟩)
      · exact Or.inl (Or.inl h)
      · exact Or.inl (Or.inr (h' ▸ hk))
      · exact Or.inr ⟨r', h', hk⟩

/-- C5: for every non-empty batch, `_records_to_csv` emits a header that is
the union of all keys across all records sorted alphabetically, then one row
per record in input order with values in that same field order; missing keys
render as `""` and dict/list values as embedded JSON text; on the spec's
two-record example it produces exactly
`Email,FirstName,LastName / john@example.com,John,Doe / jane@example.com,Jane,Smith`. -/
theorem records_to_csv_spec (records : List Record) (hne : records ≠ []) :
    recordsToCsv records =
      String.intercalate "\n"
        (String.intercalate "," (sortedFields records) ::
          records.map (csvRow (sortedFields records)))
    ∧ (sortedFields records).Sorted (· ≤ ·)
    ∧ (sortedFields records).Nodup
    ∧ (∀ k, k ∈ sortedFields records ↔ ∃ r ∈ records, k ∈ r.map Prod.fst)
    ∧ (∀ (r : Record) (f : String), r.lookup f = none → renderValue (r.lookup f) = "")
    ∧ (∀ fs, renderValue (some (Json.obj fs)) = Json.dumps (Json.obj fs))
    ∧ (∀ xs, renderValue (some (Json.arr xs)) = Json.dumps (Json.arr xs))
    ∧ recordsToCsv exampleRecords =
        "Email,FirstName,LastName\njohn@example.com,John,Doe\njane@example.com,Jane,Smith" := by
  refine ⟨?_, ?_, ?_, ?_, ?_, fun _ => rfl, fun _ => rfl, by decide⟩
  · cases records with
    | nil => exact absurd rfl hne
    | cons r rs => rfl
  · haveI : IsTotal String (fun a b => strLe a b = true) := ⟨fun a b => by
      rcases le_total a b with h | h
      · exact Or.inl ((strLe_iff a b).2 h)
      · exact Or.inr ((strLe_iff b a).2 h)⟩
    haveI : IsTrans String (fun a b => strLe a b = true) := ⟨fun a b c hab hbc =>
      (strLe_iff a c).2 (le_trans ((strLe_iff a b).1 hab) ((strLe_iff b c).1 hbc))⟩
    exact (List.sorted_insertionSort _ _).imp (fun h => (strLe_iff _ _).1 h)
  · exact ((List.perm_insertionSort _ _).nodup_iff).2 (List.nodup_dedup _)
  · intro k
    rw [sortedFields, (List.perm_insertionSort _ _).mem_iff, recordKeys,
      List.mem_dedup, mem_foldKeys records [] k]
    simp
  · intro r f h
    rw [h]
    rfl

/-- Witness for `records_to_csv_spec`: the spec's concrete two-record
example batch is non-empty and serializes to exactly the expected CSV. -/
theorem records_to_csv_spec_witness :
    exampleRecords ≠ [] ∧
      recordsToCsv exampleRecords =
        "Email,FirstName,LastName\njohn@example.com,John,Doe\njane@example.com,Jane,Smith" :=
  ⟨List.cons_ne_nil _ _,
    (records_to_csv_spec exampleRecords (List.cons_ne_nil _ _)).2.2.2.2.2.2.2⟩

/-- Rate limiting configuration (`config.py`, `RateLimitConfig`): refill
rate in requests per second, bucket capacity, and whether `acquire` waits
at the limit or fails. -/
structure RateLimitConfig where
  requests_per_second : ℚ
  burst_size : ℤ
  wait_on_limit : Bool

/-- Python `int()` applied to a rational: truncation toward zero. -/
def pyInt (q : ℚ) : ℤ := if 0 ≤ q then ⌊q⌋ else ⌈q⌉

/-- The refill step of `RateLimiter.acquire` (`client.py` lines 36–42):
the elapsed time since `last_update` adds `elapsed * requests_per_second`
tokens, capped at `burst_size`. -/
def refill (cfg : RateLimitConfig) (tokens elapsed : ℚ) : ℚ :=
  min (cfg.burst_size : ℚ) (tokens + elapsed * cfg.requests_per_second)

/-- Result of one `RateLimiter.acquire` call: either a token was obtained
(recording how long the call slept, `none` when no sleep happened), or a
`RateLimitError` with its `retry_after` value was raised. -/
inductive AcquireOutcome where
  | acquired (sleptFor : Option ℚ)
  | rateLimited (retry_after : ℤ)
deriving DecidableEq

/-- `RateLimiter.acquire` (`client.py` lines 33–55) as a state transformer:
given the current token count and the elapsed time, returns the outcome and
the new token count. On the `wait_on_limit` path the source sleeps
`(1 - tokens) / requests_per_second`, sets `tokens = 1`, then decrements
(leaving 0); on the failing path it raises `RateLimitError` with
`retry_after = int((1 - tokens) / requests_per_second)`, leaving the
refilled, undecremented count in place. -/
def acquireStep (cfg : RateLimitConfig) (tokens elapsed : ℚ) :
    AcquireOutcome × ℚ :=
  if refill cfg tokens elapsed < 1 then
    if cfg.wait_on_limit then
      (.acquired (some ((1 - refill cfg tokens elapsed) / cfg.requests_per_second)), 0)
    else
      (.rateLimited (pyInt ((1 - refill cfg tokens elapsed) / cfg.requests_per_second)),
       refill cfg tokens elapsed)
  else
    (.acquired none, refill cfg tokens elapsed - 1)

/-- A sequence of `acquire` calls with the given elapsed times between them,
starting from the given token count; returns each call's outcome and
post-state in order. -/
def runAcquires (cfg : RateLimitConfig) (tokens : ℚ) :
    List ℚ → List (AcquireOutcome × ℚ)
  | [] => []
  | e :: es =>
      let r := acquireStep cfg tokens e
      r :: runAcquires cfg r.2 es

/-- The `RateLimiter` configuration of the spec's no-wait test vector:
`burst_size=1, requests_per_second=1, wait_on_limit=false`. -/
def noWaitCfg : RateLimitConfig := ⟨1, 1, false⟩

/-- C6: with `burst_size=1, requests_per_second=1, wait_on_limit=false`,
the first acquisition (from the fresh limiter, after any non-negative
elapsed time) succeeds, and an immediate second acquisition fails with a
`RateLimitError`; in general, whenever fewer than one token is available
after refill and waiting is disabled, `acquire` raises `RateLimitError`
carrying `int((1 - tokens) / requests_per_second)` — the wait that would
have been required — instead of sleeping, and refill never raises the
token count above `burst_size`. -/
theorem rate_limiter_no_wait_spec :
    (∀ e : ℚ, 0 ≤ e → acquireStep noWaitCfg 1 e = (.acquired none, 0))
    ∧ acquireStep noWaitCfg 0 0 = (.rateLimited 1, 0)
    ∧ (∀ (cfg : RateLimitConfig) (tokens elapsed : ℚ),
        cfg.wait_on_limit = false → refill cfg tokens elapsed < 1 →
        acquireStep cfg tokens elapsed =
          (.rateLimited (pyInt ((1 - refill cfg tokens elapsed) / cfg.requests_per_second)),
           refill cfg tokens elapsed))
    ∧ (∀ (cfg : RateLimitConfig) (tokens elapsed : ℚ),
        refill cfg tokens elapsed ≤ (cfg.burst_size : ℚ)) := by
  refine ⟨?_, ?_, ?_, fun cfg tokens elapsed => min_le_left _ _⟩
  · intro e he
    have hr : refill noWaitCfg 1 e = 1 := by
      show min ((1 : ℤ) : ℚ) (1 + e * 1) = 1
      rw [Int.cast_one, mul_one]
      exact min_eq_left (by linarith)
    unfold acquireStep
    rw [hr, if_neg (by norm_num)]
    norm_num
  · have hr : refill noWaitCfg 0 0 = 0 := by
      show min ((1 : ℤ) : ℚ) (0 + 0 * 1) = 0
      norm_num
    unfold acquireStep
    rw [hr, if_pos (by norm_num), if_neg (by decide)]
    norm_num [pyInt, noWaitCfg]
  · intro cfg tokens elapsed hw hlt
    unfold acquireStep
    rw [if_pos hlt, hw, if_neg Bool.false_ne_true]

/-- Witness for `rate_limiter_no_wait_spec`: the spec's two-acquisition
scenario at concrete inputs. -/
theorem rate_limiter_no_wait_spec_witness :
    acquireStep noWaitCfg 1 0 = (.acquired none, 0)
    ∧ acquireStep noWaitCfg 0 0 = (.rateLimited 1, 0) :=
  ⟨rate_limiter_no_wait_spec.1 0 le_rfl, rate_limiter_no_wait_spec.2.1⟩

/-- A completed (non-raising) `acquire` leaves the token count within
`[0, burst_size]`, from any starting count. -/
theorem acquireStep_bounds (cfg : RateLimitConfig)
    (hburst : (0 : ℚ) ≤ (cfg.burst_size : ℚ)) (tokens elapsed : ℚ)
    (s : Option ℚ) (h : (acquireStep cfg tokens elapsed).1 = .acquired s) :
    0 ≤ (acquireStep cfg tokens elapsed).2 ∧
      (acquireStep cfg tokens elapsed).2 ≤ (cfg.burst_size : ℚ) := by
  unfold acquireStep at h ⊢
  by_cases hlt : refill cfg tokens elapsed < 1
  · rw [if_pos hlt] at h ⊢
    by_cases hw : cfg.wait_on_limit = true
    · rw [if_pos hw]
      exact ⟨le_rfl, hburst⟩
    · rw [if_neg hw] at h
      exact AcquireOutcome.noConfusion h
  · rw [if_neg hlt]
    have h1 : (1 : ℚ) ≤ refill cfg tokens elapsed := not_lt.mp hlt
    have h2 : refill cfg tokens elapsed ≤ (cfg.burst_size : ℚ) := min_le_left _ _
    constructor
    · show (0 : ℚ) ≤ refill cfg tokens elapsed - 1
      linarith
    · show refill cfg tokens elapsed - 1 ≤ (cfg.burst_size : ℚ)
      linarith

/-- Invariant preservation along any sequence of acquisitions, from any
starting token count. -/
theorem runAcquires_bounds (cfg : RateLimitConfig)
    (hburst : (0 : ℚ) ≤ (cfg.burst_size : ℚ)) :
    ∀ (es : List ℚ) (tokens : ℚ), ∀ r ∈ runAcquires cfg tokens es,
      ∀ s, r.1 = AcquireOutcome.acquired s →
        0 ≤ r.2 ∧ r.2 ≤ (cfg.burst_size : ℚ) := by
  intro es
  induction es with
  | nil => intro tokens r hr; exact absurd hr (List.not_mem_nil r)
  | cons e es ih =>
    intro tokens r hr s hs
    rcases List.mem_cons.mp hr with hr | hr
    · subst hr
      exact acquireStep_bounds cfg hburst tokens e s hs
    · exact ih _ r hr s hs

/-- C10: for every rate limiter with `burst_size ≥ 1`, every completed
`acquire` in any sequence of acquisitions (any pattern of elapsed times,
starting from the freshly constructed limiter with `tokens = burst_size`)
leaves `0 ≤ tokens ≤ burst_size`. -/
theorem rate_limiter_invariant (cfg : RateLimitConfig)
    (hburst : 1 ≤ cfg.burst_size) (elapsedTimes : List ℚ) :
    ∀ r ∈ runAcquires cfg (cfg.burst_size : ℚ) elapsedTimes,
      ∀ s, r.1 = AcquireOutcome.acquired s →
        0 ≤ r.2 ∧ r.2 ≤ (cfg.burst_size : ℚ) := by
  have h0 : (0 : ℚ) ≤ (cfg.burst_size : ℚ) := by
    have : (0 : ℤ) ≤ cfg.burst_size := le_trans (by norm_num) hburst
    exact_mod_cast this
  exact runAcquires_bounds cfg h0 elapsedTimes (cfg.burst_size : ℚ)

/-- The outcome of `error.response.json()` in `_handle_http_error`
(`client.py` lines 134–137): either the parse raises (any exception is
swallowed by the bare `except`), or it yields an arbitrary JSON value. -/
inductive ErrorBody where
  | parseFailed
  | parsed (j : Json)

/-- `error_data` (`client.py` lines 134–137): the parsed body, or — when
the parse raised — the substituted
`[{"message": str(error), "errorCode": "UNKNOWN_ERROR"}]`. -/
def errorDataOf (errText : String) : ErrorBody → Json
  | .parseFailed =>
      .arr [.obj [("message", .str errText), ("errorCode", .str "UNKNOWN_ERROR")]]
  | .parsed j => j

/-- Selection of `error_info` (`client.py` lines 139–142):
`isinstance(error_data, list) and error_data` picks the first element of a
non-empty list; everything else — a dict, but also the empty list and any
scalar — is used as is. -/
def errorInfoOf (errorData : Json) : Json :=
  match errorData with
  | .arr (x :: _) => x
  | _ => errorData

/-- Python's `value.get(key, default)`: defined on dicts only — on any
other value the attribute access raises `AttributeError` (as
`error_info.get` does at `client.py` lines 144–145 when the body did not
have the provider's dict shape). -/
def pyGet (v : Json) (key : String) (default : Json) : Except String Json :=
  match v with
  | .obj fields => .ok ((fields.lookup key).getD default)
  | _ => .error "AttributeError"

/-- The `Retry-After` header slot together with Python `int()`'s behaviour
on it (`client.py` line 154): absent (so `headers.get` yields the default
`60`), present with a string `int()` accepts (yielding `n`), or present
with a string on which `int()` raises `ValueError`. -/
inductive HeaderValue where
  | absent
  | numeric (n : ℤ)
  | nonNumeric (s : String)

/-- The typed errors of `exceptions.py` that the client layer can raise:
`ValidationError`, `ObjectNotFoundError`, `RateLimitError`, plain
`SalesforceError` (the "Generic" variant) and `AuthenticationError`.
The message, error code and field errors are stored exactly as read from
the body (arbitrary JSON values); `AuthenticationError` messages are
always built from f-strings, hence `String`. -/
inductive SfError where
  | validation (message : Json) (field_errors : Json)
  | notFound (message : Json)
  | rateLimited (message : Json) (retry_after : ℤ)
  | generic (message : Json) (error_code : Json) (status_code : ℕ)
  | authentication (message : String) (auth_type : Option String)

/-- `SalesforceClient._handle_http_error` (`client.py` lines 132–161):
compute `message = error_info.get("message", str(error))` and
`error_code = error_info.get("errorCode", "UNKNOWN_ERROR")` — both raising
`AttributeError` when `error_info` is not a dict — then classify by status
code: 400 raises `ValidationError` with `error_info.get("fields", {})`,
404 raises `ObjectNotFoundError`, 429 raises `RateLimitError` with
`int(headers.get("Retry-After", 60))` (which raises `ValueError` on a
non-numeric header), anything else raises `SalesforceError` with the error
code and the HTTP status. `.error` is an unintended exception escaping the
handler; `.ok` is the typed error it raises on purpose. -/
def handleHttpError (status : ℕ) (body : ErrorBody) (retryAfterHeader : HeaderValue)
    (errText : String) : Except String SfError :=
  match pyGet (errorInfoOf (errorDataOf errText body)) "message" (.str errText),
        pyGet (errorInfoOf (errorDataOf errText body)) "errorCode" (.str "UNKNOWN_ERROR") with
  | .error e, _ => .error e
  | _, .error e => .error e
  | .ok message, .ok errorCode =>
      if status = 400 then
        match pyGet (errorInfoOf (errorDataOf errText body)) "fields" (Json.obj []) with
        | .error e => .error e
        | .ok fields => .ok (.validation message fields)
      else if status = 404 then .ok (.notFound message)
      else if status = 429 then
        match retryAfterHeader with
        | .absent => .ok (.rateLimited message 60)
        | .numeric n => .ok (.rateLimited message n)
        | .nonNumeric _ => .error "ValueError"
      else .ok (.generic message errorCode status)

/-- An HTTP response as the client observes it: the status code, the parsed
success body (`none` when `response.content` is empty), the error-body
parse outcome, the `Retry-After` header, and `str(error)` for the
corresponding `HTTPStatusError`. -/
structure HttpResponse where
  status : ℕ
  okBody : Option Json
  errBody : ErrorBody
  retryAfter : HeaderValue
  errText : String

/-- Result of one attempt of `self._client.request(...)`: a response, or a
transport-level exception (connection error, timeout — anything `httpx`
raises that is not an `HTTPStatusError`). -/
inductive HttpResult where
  | response (r : HttpResponse)
  | transportError (e : String)

/-- What `_make_request` produces for its caller: a decoded JSON body, a
raised typed `SfError`, or an uncaught exception propagating raw across
the client boundary — a transport error, or the `AttributeError` /
`ValueError` escaping `_handle_http_error`. -/
inductive Outcome where
  | success (body : Json)
  | sfError (e : SfError)
  | rawTransport (e : String)

/-- `httpx.Response.is_success`: 2xx statuses, for which
`raise_for_status` does not raise. -/
def is2xx (status : ℕ) : Bool := decide (200 ≤ status) && decide (status < 300)

/-- The result an attempt receives when no 401 retry fires (`client.py`
lines 123–130): a transport error propagates raw; a 2xx response returns
its JSON body (`{}` when the content is empty); any other response goes
through `raise_for_status` and `_handle_http_error`, whose own unintended
`AttributeError`/`ValueError` also propagates raw (it is not an
`httpx.HTTPStatusError`, and nothing catches it). -/
def baseOutcome : HttpResult → Outcome
  | .transportError e => .rawTransport e
  | .response r =>
      if is2xx r.status then .success (r.okBody.getD (Json.obj []))
      else
        match handleHttpError r.status r.errBody r.retryAfter r.errText with
        | .ok sfe => .sfError sfe
        | .error e => .rawTransport e

/-- `SalesforceClient._make_request` (`client.py` lines 86–130) with the
HTTP layer abstracted as an oracle `env` from attempt index to result.
The first argument is the remaining budget `max_retries - retry_count`:
a 401 response with budget left triggers `self.auth.authenticate()`
(counted in the second component) and a recursive retry with
`retry_count + 1` (lines 116–121); everything else is classified by
`baseOutcome`. -/
def makeRequestAux (env : ℕ → HttpResult) : ℕ → ℕ → Outcome × ℕ
  | 0, attempt => (baseOutcome (env attempt), 0)
  | b + 1, attempt =>
      match env attempt with
      | .transportError e => (.rawTransport e, 0)
      | .response r =>
          if r.status = 401 then
            ((makeRequestAux env b (attempt + 1)).1,
             (makeRequestAux env b (attempt + 1)).2 + 1)
          else (baseOutcome (.response r), 0)

/-- A call to `_make_request` as issued by the public operations:
`retry_count = 0`, so the budget is the full `max_retries`. Returns the
outcome and the number of re-authentications performed. -/
def makeRequest (maxRetries : ℕ) (env : ℕ → HttpResult) : Outcome × ℕ :=
  makeRequestAux env maxRetries 0

/-- Whether an attempt's result is a 401 response — the only condition
(with budget) under which `_make_request` retries. -/
def is401 : HttpResult → Bool
  | .response r => decide (r.status = 401)
  | .transportError _ => false

/-- The attempt index at which the retry loop stops: the first attempt
whose result is not a 401 response, capped by the budget. -/
def stopIndex (env : ℕ → HttpResult) : ℕ → ℕ → ℕ
  | 0, attempt => attempt
  | b + 1, attempt =>
      if is401 (env attempt) then stopIndex env b (attempt + 1) else attempt

/-- `stopIndex` stays within `[attempt, attempt + budget]`. -/
theorem stopIndex_bounds (env : ℕ → HttpResult) :
    ∀ (b attempt : ℕ),
      attempt ≤ stopIndex env b attempt ∧ stopIndex env b attempt ≤ attempt + b := by
  intro b
  induction b with
  | zero => intro attempt; exact ⟨le_rfl, show attempt ≤ attempt + 0 by omega⟩
  | succ b ih =>
    intro attempt
    unfold stopIndex
    by_cases h : is401 (env attempt) = true
    · rw [if_pos h]
      have := ih (attempt + 1)
      omega
    · rw [if_neg h]
      omega

/-- Every attempt before the stop index got a 401 response, and if the stop
index is inside the budget the attempt there did not. -/
theorem stopIndex_spec (env : ℕ → HttpResult) :
    ∀ (b attempt : ℕ),
      (∀ k, attempt ≤ k → k < stopIndex env b attempt → is401 (env k) = true)
      ∧ (stopIndex env b attempt < attempt + b →
          is401 (env (stopIndex env b attempt)) = false) := by
  intro b
  induction b with
  | zero =>
    intro attempt
    constructor
    · intro k hk hk'
      have hk'' : k < attempt := hk'
      exact absurd (lt_of_le_of_lt hk hk'') (lt_irrefl _)
    · intro h
      exact absurd (show attempt < attempt + 0 from h) (by omega)
  | succ b ih =>
    intro attempt
    unfold stopIndex
    by_cases h : is401 (env attempt) = true
    · rw [if_pos h]
      refine ⟨fun k hk hk' => ?_, fun hlt => ?_⟩
      · rcases eq_or_lt_of_le hk with hk | hk
        · exact hk ▸ h
        · exact (ih (attempt + 1)).1 k hk hk'
      · exact (ih (attempt + 1)).2 (by omega)
    · rw [if_neg h]
      exact ⟨fun k hk hk' => absurd (lt_of_le_of_lt hk hk') (lt_irrefl _),
        fun _ => by simpa using h⟩

/-- Characterization of the retry loop: `_make_request` classifies the
result of the attempt at the stop index, having performed one
re-authentication per 401 answered before it. -/
theorem makeRequestAux_eq (env : ℕ → HttpResult) :
    ∀ (b attempt : ℕ),
      makeRequestAux env b attempt =
        (baseOutcome (env (stopIndex env b attempt)),
         stopIndex env b attempt - attempt) := by
  intro b
  induction b with
  | zero => intro attempt; simp [makeRequestAux, stopIndex]
  | succ b ih =>
    intro attempt
    cases henv : env attempt with
    | transportError e =>
      simp [makeRequestAux, stopIndex, henv, is401, baseOutcome]
    | response r =>
      by_cases hst : r.status = 401
      · have hb := stopIndex_bounds env b (attempt + 1)
        simp [makeRequestAux, stopIndex, henv, is401, hst, ih (attempt + 1)]
        omega
      · simp [makeRequestAux, stopIndex, henv, is401, hst, baseOutcome]

/-- Witness for `rate_limiter_invariant` at the concrete
`burst_size=1, requests_per_second=1` limiter and a single acquisition. -/
theorem rate_limiter_invariant_witness :
    (1 : ℤ) ≤ noWaitCfg.burst_size ∧
      0 ≤ (AcquireOutcome.acquired (Option.none (α := ℚ)), (0 : ℚ)).2 ∧
      (AcquireOutcome.acquired (Option.none (α := ℚ)), (0 : ℚ)).2 ≤
        (noWaitCfg.burst_size : ℚ) := by
  refine ⟨le_rfl, ?_⟩
  have hrun : runAcquires noWaitCfg (noWaitCfg.burst_size : ℚ) [0] =
      [(AcquireOutcome.acquired none, 0)] := by
    norm_num [runAcquires, acquireStep, refill, noWaitCfg]
  have hmem : (AcquireOutcome.acquired (Option.none (α := ℚ)), (0 : ℚ)) ∈
      runAcquires noWaitCfg (noWaitCfg.burst_size : ℚ) [0] := by
    rw [hrun]
    exact List.mem_singleton.mpr rfl
  exact rate_limiter_invariant noWaitCfg le_rfl [0] _ hmem none rfl

/-- When `error_info` is a dict, both `.get` calls succeed and
`_handle_http_error` reduces to the pure status dispatch. -/
theorem handleHttpError_obj (status : ℕ) (body : ErrorBody) (hdr : HeaderValue)
    (errText : String) (info : List (String × Json))
    (hinfo : errorInfoOf (errorDataOf errText body) = Json.obj info) :
    handleHttpError status body hdr errText =
      (if status = 400 then
        .ok (.validation ((info.lookup "message").getD (.str errText))
          ((info.lookup "fields").getD (Json.obj [])))
      else if status = 404 then
        .ok (.notFound ((info.lookup "message").getD (.str errText)))
      else if status = 429 then
        (match hdr with
         | .absent =>
             .ok (.rateLimited ((info.lookup "message").getD (.str errText)) 60)
         | .numeric n =>
             .ok (.rateLimited ((info.lookup "message").getD (.str errText)) n)
         | .nonNumeric _ => .error "ValueError")
      else
        .ok (.generic ((info.lookup "message").getD (.str errText))
          ((info.lookup "errorCode").getD (.str "UNKNOWN_ERROR")) status)) := by
  unfold handleHttpError
  rw [hinfo]
  rfl

/-- When `error_info` is not a dict (the body parsed to an empty list, a
scalar, or a list with a non-dict head), `error_info.get` raises
`AttributeError` for every status. -/
theorem handleHttpError_nonObj (status : ℕ) (body : ErrorBody)
    (hdr : HeaderValue) (errText : String)
    (h : ∀ fs, errorInfoOf (errorDataOf errText body) ≠ Json.obj fs) :
    handleHttpError status body hdr errText = .error "AttributeError" := by
  unfold handleHttpError
  cases hinfo : errorInfoOf (errorDataOf errText body) with
  | obj fs => exact absurd hinfo (h fs)
  | null => rfl
  | str s => rfl
  | int n => rfl
  | bool b => rfl
  | arr xs => rfl

/-- `_handle_http_error` never raises `AuthenticationError` — that type is
constructed only by the `authenticate` flows. -/
theorem handleHttpError_ne_authentication (status : ℕ) (body : ErrorBody)
    (hdr : HeaderValue) (txt msg : String) (t : Option String) :
    handleHttpError status body hdr txt ≠ .ok (.authentication msg t) := by
  by_cases hobj : ∃ fs, errorInfoOf (errorDataOf txt body) = Json.obj fs
  · obtain ⟨fs, hfs⟩ := hobj
    rw [handleHttpError_obj status body hdr txt fs hfs]
    split_ifs
    · simp
    · simp
    · cases hdr <;> simp
    · simp
  · rw [handleHttpError_nonObj status body hdr txt (fun fs h => hobj ⟨fs, h⟩)]
    simp

/-- C4 counterexample: the raised error is not determined by the status
alone — a 400 response whose body parses to the empty list makes
`error_info.get` raise `AttributeError` instead of `ValidationError`, and
a 429 response with a well-shaped body but a non-numeric `Retry-After`
header makes `int()` raise `ValueError` instead of `RateLimitError`. -/
theorem http_error_body_shape_crash :
    handleHttpError 400 (.parsed (.arr [])) .absent "400 Bad Request" =
      .error "AttributeError"
    ∧ handleHttpError 429 (.parsed (.obj [("message", .str "limit")]))
        (.nonNumeric "soon") "429 Too Many Requests" = .error "ValueError" :=
  ⟨rfl, rfl⟩

/-- C4 (amended): for every non-2xx response whose error body parses to a
dict, to a non-empty list with a dict head, or fails to parse, the raised
typed error is determined by the status alone — 400 raises
`ValidationError` carrying the provider's field errors, 404 raises
`ObjectNotFoundError`, 429 raises `RateLimitError` carrying the `int()` of
the `Retry-After` header (60 when absent; a non-numeric header instead
raises `ValueError` raw), and any other status raises the Generic
`SalesforceError` carrying the provider error code and the HTTP status;
a body parsing to an empty list, a scalar, or a list with a non-dict head
instead raises `AttributeError` raw, for every status. -/
theorem http_error_classification (status : ℕ) (body : ErrorBody)
    (hdr : HeaderValue) (errText : String) (info : List (String × Json))
    (hinfo : errorInfoOf (errorDataOf errText body) = Json.obj info) :
    (status = 400 →
      handleHttpError status body hdr errText =
        .ok (.validation ((info.lookup "message").getD (.str errText))
          ((info.lookup "fields").getD (Json.obj []))))
    ∧ (status = 404 →
      handleHttpError status body hdr errText =
        .ok (.notFound ((info.lookup "message").getD (.str errText))))
    ∧ (status = 429 →
        (hdr = .absent →
          handleHttpError status body hdr errText =
            .ok (.rateLimited ((info.lookup "message").getD (.str errText)) 60))
        ∧ (∀ n, hdr = .numeric n →
          handleHttpError status body hdr errText =
            .ok (.rateLimited ((info.lookup "message").getD (.str errText)) n))
        ∧ (∀ s, hdr = .nonNumeric s →
          handleHttpError status body hdr errText = .error "ValueError"))
    ∧ (status ≠ 400 → status ≠ 404 → status ≠ 429 →
      handleHttpError status body hdr errText =
        .ok (.generic ((info.lookup "message").getD (.str errText))
          ((info.lookup "errorCode").getD (.str "UNKNOWN_ERROR")) status))
    ∧ (∀ (status' : ℕ) (j : Json) (hdr' : HeaderValue) (txt' : String),
        (∀ fs, errorInfoOf j ≠ Json.obj fs) →
        handleHttpError status' (.parsed j) hdr' txt' = .error "AttributeError") := by
  refine ⟨fun h => ?_, fun h => ?_,
    fun h => ⟨fun hh => ?_, fun n hh => ?_, fun s hh => ?_⟩,
    fun h1 h2 h3 => ?_,
    fun status' j hdr' txt' hno => handleHttpError_nonObj status' (.parsed j) hdr' txt' hno⟩
  · subst h; rw [handleHttpError_obj 400 body hdr errText info hinfo]; rfl
  · subst h; rw [handleHttpError_obj 404 body hdr errText info hinfo]; rfl
  · subst h; subst hh
    rw [handleHttpError_obj 429 body .absent errText info hinfo]; rfl
  · subst h; subst hh
    rw [handleHttpError_obj 429 body (.numeric n) errText info hinfo]; rfl
  · subst h; subst hh
    rw [handleHttpError_obj 429 body (.nonNumeric s) errText info hinfo]; rfl
  · rw [handleHttpError_obj status body hdr errText info hinfo,
      if_neg h1, if_neg h2, if_neg h3]

/-- Witness for `http_error_classification`: a concrete 429 response with
a list-of-dict body and no `Retry-After` header yields `RateLimitError`
with the default 60. -/
theorem http_error_classification_witness :
    handleHttpError 429
        (.parsed (.arr [.obj [("message", .str "Request limit exceeded"),
          ("errorCode", .str "REQUEST_LIMIT_EXCEEDED")]]))
        .absent "429 Too Many Requests" =
      .ok (.rateLimited (.str "Request limit exceeded") 60) :=
  (((http_error_classification 429
      (.parsed (.arr [.obj [("message", .str "Request limit exceeded"),
        ("errorCode", .str "REQUEST_LIMIT_EXCEEDED")]]))
      .absent "429 Too Many Requests"
      [("message", .str "Request limit exceeded"),
       ("errorCode", .str "REQUEST_LIMIT_EXCEEDED")]
      rfl).2.2.1 rfl).1 rfl).trans rfl

/-- C3: the retry loop of `_make_request` performs exactly one
re-authentication followed by exactly one retry per 401 response, stopping
once the retry budget is exhausted, and no other result triggers a retry:
the call's result is the classification of the attempt at the stop index —
the first attempt not answered with a 401, capped at `maxRetries` — and the
re-authentication count equals that index; every attempt before it was a
401 and, when the budget was not exhausted, the attempt at the stop index
was not a 401. -/
theorem make_request_retry_on_401 (maxRetries : ℕ) (env : ℕ → HttpResult) :
    makeRequest maxRetries env =
      (baseOutcome (env (stopIndex env maxRetries 0)), stopIndex env maxRetries 0)
    ∧ stopIndex env maxRetries 0 ≤ maxRetries
    ∧ (∀ k, k < stopIndex env maxRetries 0 → is401 (env k) = true)
    ∧ (stopIndex env maxRetries 0 < maxRetries →
        is401 (env (stopIndex env maxRetries 0)) = false) := by
  refine ⟨?_, ?_, ?_, ?_⟩
  · rw [makeRequest, makeRequestAux_eq env maxRetries 0, Nat.sub_zero]
  · have := stopIndex_bounds env maxRetries 0
    omega
  · intro k hk
    exact (stopIndex_spec env maxRetries 0).1 k (Nat.zero_le k) hk
  · intro h
    exact (stopIndex_spec env maxRetries 0).2 (by omega)

/-- A 401 response as the retry test vector sees it. -/
def resp401 : HttpResponse :=
  ⟨401, none, .parsed (.arr [.obj [("message", .str "Session expired")]]),
   .absent, "401 Unauthorized"⟩

/-- A 200 response carrying `{"success": true}`. -/
def resp200 : HttpResponse :=
  ⟨200, some (Json.obj [("success", Json.bool true)]), .parseFailed, .absent, ""⟩

/-- An HTTP oracle answering 401 on the first attempt and 200 afterwards. -/
def envRetryOnce : ℕ → HttpResult := fun k =>
  if k = 0 then .response resp401 else .response resp200

/-- Witness for `make_request_retry_on_401`: one 401 then a success —
exactly one re-authentication, result taken from the second attempt. -/
theorem make_request_retry_on_401_witness :
    makeRequest 3 envRetryOnce =
      (.success (Json.obj [("success", Json.bool true)]), 1)
    ∧ stopIndex envRetryOnce 3 0 ≤ 3
    ∧ is401 (envRetryOnce 0) = true :=
  ⟨((make_request_retry_on_401 3 envRetryOnce).1).trans rfl,
   (make_request_retry_on_401 3 envRetryOnce).2.1,
   (make_request_retry_on_401 3 envRetryOnce).2.2.1 0 (by decide)⟩

/-- The attempt index of the final attempt equals the budget when every
attempt up to the budget is answered with a 401. -/
theorem stopIndex_all401 (m : ℕ) (env : ℕ → HttpResult)
    (h401 : ∀ k, k ≤ m → is401 (env k) = true) : stopIndex env m 0 = m := by
  have hb := stopIndex_bounds env m 0
  by_contra hne
  have hlt : stopIndex env m 0 < m := by omega
  have := (stopIndex_spec env m 0).2 (by omega)
  rw [h401 _ (le_of_lt hlt)] at this
  exact Bool.noConfusion this

/-- A 401-answered attempt is a response with status 401. -/
theorem is401_response (x : HttpResult) (h : is401 x = true) :
    ∃ r, x = .response r ∧ r.status = 401 := by
  cases x with
  | transportError e => exact absurd h (by simp [is401])
  | response r => exact ⟨r, rfl, of_decide_eq_true h⟩

/-- C9 counterexample: with every attempt answered 401 but the final 401's
body parsing to the empty list, the final raise is the `AttributeError`
from `error_info.get` propagating raw — neither the Generic
`SalesforceError` nor `AuthenticationError`. -/
theorem exhausted_401_can_raise_attribute_error :
    makeRequest 3 (fun _ => .response ⟨401, none, .parsed (.arr []), .absent,
      "401 Unauthorized"⟩) = (.rawTransport "AttributeError", 3) := rfl

/-- C9 (amended): when every attempt up to the budget is answered with a
401 and the final 401's error body parses to a dict, to a non-empty list
with a dict head, or fails to parse, the final error is the Generic
`SalesforceError` carrying status 401; when that body parses to an empty
list, a scalar, or a list with a non-dict head, the `AttributeError` from
`error_info.get` propagates raw instead. In either case the error is never
`AuthenticationError`: `_handle_http_error` cannot produce it — that type
is raised only inside the `authenticate` flows themselves. -/
theorem make_request_401_exhaustion (m : ℕ) (env : ℕ → HttpResult)
    (h401 : ∀ k, k ≤ m → is401 (env k) = true) :
    (∀ (r : HttpResponse) (info : List (String × Json)), env m = .response r →
        errorInfoOf (errorDataOf r.errText r.errBody) = Json.obj info →
        ∃ msg code, makeRequest m env = (.sfError (.generic msg code 401), m))
    ∧ (∀ (r : HttpResponse) (j : Json), env m = .response r →
        r.errBody = .parsed j → (∀ fs, errorInfoOf j ≠ Json.obj fs) →
        makeRequest m env = (.rawTransport "AttributeError", m))
    ∧ (∀ (status : ℕ) (body : ErrorBody) (hdr : HeaderValue) (txt msg : String)
        (t : Option String),
        handleHttpError status body hdr txt ≠ .ok (.authentication msg t)) := by
  have hstop : stopIndex env m 0 = m := stopIndex_all401 m env h401
  refine ⟨?_, ?_, fun status body hdr txt msg t =>
    handleHttpError_ne_authentication status body hdr txt msg t⟩
  · intro r info hr hinfo
    obtain ⟨r', hr', hrs⟩ := is401_response (env m) (h401 m le_rfl)
    rw [hr] at hr'
    cases hr'
    refine ⟨(info.lookup "message").getD (.str r.errText),
      (info.lookup "errorCode").getD (.str "UNKNOWN_ERROR"), ?_⟩
    rw [makeRequest, makeRequestAux_eq env m 0, Nat.sub_zero, hstop, hr]
    simp only [baseOutcome]
    rw [hrs, handleHttpError_obj 401 r.errBody r.retryAfter r.errText info hinfo]
    rfl
  · intro r j hr hj hno
    obtain ⟨r', hr', hrs⟩ := is401_response (env m) (h401 m le_rfl)
    rw [hr] at hr'
    cases hr'
    rw [makeRequest, makeRequestAux_eq env m 0, Nat.sub_zero, hstop, hr]
    simp only [baseOutcome]
    rw [hrs, hj, handleHttpError_nonObj 401 (.parsed j) r.retryAfter r.errText hno]
    rfl

/-- An HTTP oracle answering 401 on every attempt. -/
def env401 : ℕ → HttpResult := fun _ => .response resp401

/-- Witness for `make_request_401_exhaustion`: three retries all answered
401 with a well-shaped body end in the Generic `SalesforceError` with
status 401. -/
theorem make_request_401_exhaustion_witness :
    ∃ msg code, makeRequest 3 env401 = (.sfError (.generic msg code 401), 3) :=
  (make_request_401_exhaustion 3 env401 (fun _ _ => rfl)).1 resp401
    [("message", Json.str "Session expired")] rfl rfl

/-- An HTTP oracle whose every attempt raises a transport-level exception. -/
def envTransport : ℕ → HttpResult :=
  fun _ => .transportError "httpx.ConnectError: connection refused"

/-- C2 counterexample: a network/transport error is not wrapped into any
typed error — `_make_request` catches only `httpx.HTTPStatusError`, so the
raw transport exception crosses the client boundary unchanged. -/
theorem raw_transport_error_propagates :
    makeRequest 3 envTransport =
      (.rawTransport "httpx.ConnectError: connection refused", 0) := rfl

/-- C2 (amended): a malformed (unparseable) error body is wrapped into a
typed error — classified by status as usual, with message `str(error)` and
error code `UNKNOWN_ERROR` (on a 429 the `Retry-After` header's `int()`
still applies: default 60 when absent, its value when numeric, a raw
`ValueError` when non-numeric) — but a transport-level exception is not
caught by the request path and propagates raw, with no re-authentication. -/
theorem transport_and_malformed_body_handling :
    (∀ (m : ℕ) (e : String),
      makeRequest m (fun _ => .transportError e) = (.rawTransport e, 0))
    ∧ (∀ (hdr : HeaderValue) (txt : String),
        handleHttpError 400 .parseFailed hdr txt =
          .ok (.validation (.str txt) (Json.obj [])))
    ∧ (∀ (hdr : HeaderValue) (txt : String),
        handleHttpError 404 .parseFailed hdr txt = .ok (.notFound (.str txt)))
    ∧ (∀ (hdr : HeaderValue) (txt : String) (status : ℕ),
        status ≠ 400 → status ≠ 404 → status ≠ 429 →
        handleHttpError status .parseFailed hdr txt =
          .ok (.generic (.str txt) (.str "UNKNOWN_ERROR") status))
    ∧ (∀ txt : String,
        handleHttpError 429 .parseFailed .absent txt =
          .ok (.rateLimited (.str txt) 60))
    ∧ (∀ (txt : String) (n : ℤ),
        handleHttpError 429 .parseFailed (.numeric n) txt =
          .ok (.rateLimited (.str txt) n))
    ∧ (∀ txt s : String,
        handleHttpError 429 .parseFailed (.nonNumeric s) txt =
          .error "ValueError") := by
  refine ⟨?_, fun hdr txt => rfl, fun hdr txt => rfl, ?_,
    fun txt => rfl, fun txt n => rfl, fun txt s => rfl⟩
  · intro m e
    cases m <;> rfl
  · intro hdr txt status h1 h2 h3
    rw [handleHttpError_obj status .parseFailed hdr txt
        [("message", .str txt), ("errorCode", .str "UNKNOWN_ERROR")] rfl,
      if_neg h1, if_neg h2, if_neg h3]
    rfl

/-- Witness for `transport_and_malformed_body_handling`: a concrete
transport error propagating raw, and a concrete 500 with malformed body
wrapped into the Generic `SalesforceError`. -/
theorem transport_and_malformed_body_handling_witness :
    makeRequest 3 (fun _ => HttpResult.transportError "httpx.ConnectTimeout") =
      (.rawTransport "httpx.ConnectTimeout", 0)
    ∧ handleHttpError 500 .parseFailed .absent "500 Internal Server Error" =
        .ok (.generic (.str "500 Internal Server Error")
          (.str "UNKNOWN_ERROR") 500) :=
  ⟨transport_and_malformed_body_handling.1 3 "httpx.ConnectTimeout",
   transport_and_malformed_body_handling.2.2.2.1 .absent
     "500 Internal Server Error" 500 (by decide) (by decide) (by decide)⟩

/-- Result of one batch PUT (`self._client.put(...)`, `client.py` line 258):
either an HTTP response of some status, or a transport-level exception. -/
inductive UploadResult where
  | response (status : ℕ)
  | transportError (e : String)

/-- Number of batch PUTs `bulk_create` performs:
`range(0, len(records), batch_size)` yields one batch per started chunk. -/
def numBatches (nRecords batchSize : ℕ) : ℕ :=
  (nRecords + batchSize - 1) / batchSize

/-- The batch-upload loop (`client.py` lines 250–262): batches are uploaded
in order; the return value of `put` is discarded and its status is never
checked (no `raise_for_status` on it), so only a transport-level exception
can interrupt the loop. Returns the first transport error, if any. -/
def uploadBatches (uploads : ℕ → UploadResult) : ℕ → ℕ → Option String
  | 0, _ => none
  | remaining + 1, i =>
      match uploads i with
      | .transportError e => some e
      | .response _ => uploadBatches uploads remaining (i + 1)

/-- The HTTP environment of one `bulk_create` run: the per-batch upload
results, and the terminal job state (with its optional `stateMessage`) the
poll loop observes — the loop exits only on
`JobComplete`/`Failed`/`Aborted` (`client.py` lines 273–277). -/
structure BulkEnv where
  uploads : ℕ → UploadResult
  finalState : String
  stateMessage : Option String

/-- What `bulk_create` produces: the terminal job status on success, a
`BulkOperationError` when the terminal state is not `JobComplete`, or a
re-raised exception (after the best-effort abort PATCH of lines 287–297). -/
inductive BulkOutcome where
  | success (finalState : String)
  | bulkFailed (message : String) (job_id : String)
  | raised (e : String)

/-- `SalesforceClient.bulk_create` (`client.py` lines 232–297), with the
job already created (its id `jobId`) and the HTTP layer abstracted by
`env`: upload all batches in order (their response statuses unchecked),
then — the `UploadComplete` PATCH and the poll loop summarized by the
terminal state the poll observes — return the job status if that state is
`JobComplete` and raise `BulkOperationError` otherwise. An exception
during upload is re-raised after the best-effort abort. -/
def bulkCreate (records : List Record) (batchSize : ℕ) (jobId : String)
    (env : BulkEnv) : BulkOutcome :=
  match uploadBatches env.uploads (numBatches records.length batchSize) 0 with
  | some e => .raised e
  | none =>
      if env.finalState = "JobComplete" then .success env.finalState
      else
        .bulkFailed ("Bulk job failed: " ++ env.stateMessage.getD "Unknown error")
          jobId

/-- C1 fails on the code: the batch PUT's response status is never checked,
so a batch upload answered with HTTP 400 — a non-2xx failure — is silently
ignored and `bulk_create` still returns the success job status; only a
transport-level exception interrupts the upload loop and propagates (after
the best-effort abort). -/
theorem bulk_create_ignores_failed_batch_put :
    is2xx 400 = false
    ∧ bulkCreate [recJohn] 200 "750xx0000001"
        ⟨fun _ => .response 400, "JobComplete", none⟩ = .success "JobComplete"
    ∧ bulkCreate [recJohn] 200 "750xx0000001"
        ⟨fun _ => .transportError "connection reset", "JobComplete", none⟩ =
        .raised "connection reset" :=
  ⟨rfl, rfl, rfl⟩

/-- The mutable state of an `OAuth2Auth` instance (`auth.py` lines
97–114): the `AuthBase` credential fields plus the OAuth2 client
configuration, the stored refresh token, and the pending authorization
code. -/
structure OAuth2State where
  access_token : Option String
  instance_url : Option String
  token_expiry : Option ℤ
  client_id : String
  client_secret : String
  redirect_uri : String
  domain : String
  refresh_token : Option String
  authorization_code : Option String

/-- A successful token-endpoint response body: `access_token` and
`instance_url` are required (a `KeyError` otherwise), `refresh_token` may
be absent (`result.get("refresh_token")`). -/
structure TokenResponse where
  access_token : String
  instance_url : String
  refresh_token : Option String

/-- `timedelta(hours=2)` in seconds — the fixed token validity window. -/
def twoHours : ℤ := 7200

/-- `OAuth2Auth._exchange_code_for_token` (`auth.py` lines 143–174): on a
successful exchange, store the access token and instance URL, set
`refresh_token = result.get("refresh_token")` — overwriting the stored
value, with `None` when the provider omits the field — set expiry to
`now + 2h`, and clear the authorization code; on an HTTP error raise
`AuthenticationError` leaving the state unchanged. -/
def exchangeCodeForToken (s : OAuth2State) (now : ℤ)
    (resp : Except String TokenResponse) : Except SfError OAuth2State :=
  match resp with
  | .error desc =>
      .error (.authentication ("Token exchange failed: " ++ desc) (some "oauth2"))
  | .ok result =>
      .ok { s with
        access_token := some result.access_token,
        instance_url := some result.instance_url,
        refresh_token := result.refresh_token,
        token_expiry := some (now + twoHours),
        authorization_code := none }

/-- `OAuth2Auth._refresh_access_token` (`auth.py` lines 176–202): on a
successful refresh, store the access token and instance URL and set expiry
to `now + 2h`; the stored refresh token is not touched; on an HTTP error
raise `AuthenticationError` leaving the state unchanged. -/
def refreshAccessToken (s : OAuth2State) (now : ℤ)
    (resp : Except String TokenResponse) : Except SfError OAuth2State :=
  match resp with
  | .error desc =>
      .error (.authentication ("Token refresh failed: " ++ desc) (some "oauth2"))
  | .ok result =>
      .ok { s with
        access_token := some result.access_token,
        instance_url := some result.instance_url,
        token_expiry := some (now + twoHours) }

/-- An `OAuth2Auth` state holding a stored refresh token and a pending
authorization code. -/
def oauthStale : OAuth2State :=
  ⟨none, none, none, "cid", "secret", "https://cb", "login",
   some "old-refresh-token", some "authcode"⟩

/-- C7 counterexample: when the provider's code-exchange response carries
no `refresh_token`, the stored refresh token is overwritten with `None` —
not left unchanged as the claim's frame condition requires. -/
theorem exchange_clears_refresh_token :
    oauthStale.refresh_token = some "old-refresh-token"
    ∧ (exchangeCodeForToken oauthStale 0
        (.ok ⟨"new-at", "https://inst", none⟩)).map (fun s => s.refresh_token) =
      .ok none :=
  ⟨rfl, rfl⟩

/-- C7 (amended): the refresh sub-flow updates only the access token,
instance URL and expiry, leaving the refresh token, authorization code and
client configuration unchanged; the code-exchange sub-flow additionally
always overwrites the stored refresh token with the provider's
`refresh_token` field (clearing it to `None` when absent) and clears the
authorization code, leaving the client configuration unchanged. -/
theorem oauth2_token_update_effects (s : OAuth2State) (now : ℤ)
    (result : TokenResponse) :
    (∃ s', refreshAccessToken s now (.ok result) = .ok s'
      ∧ s'.access_token = some result.access_token
      ∧ s'.instance_url = some result.instance_url
      ∧ s'.token_expiry = some (now + twoHours)
      ∧ s'.refresh_token = s.refresh_token
      ∧ s'.authorization_code = s.authorization_code
      ∧ s'.client_id = s.client_id ∧ s'.client_secret = s.client_secret
      ∧ s'.redirect_uri = s.redirect_uri ∧ s'.domain = s.domain)
    ∧ (∃ s', exchangeCodeForToken s now (.ok result) = .ok s'
      ∧ s'.access_token = some result.access_token
      ∧ s'.instance_url = some result.instance_url
      ∧ s'.token_expiry = some (now + twoHours)
      ∧ s'.refresh_token = result.refresh_token
      ∧ s'.authorization_code = none
      ∧ s'.client_id = s.client_id ∧ s'.client_secret = s.client_secret
      ∧ s'.redirect_uri = s.redirect_uri ∧ s'.domain = s.domain) :=
  ⟨⟨_, rfl, rfl, rfl, rfl, rfl, rfl, rfl, rfl, rfl, rfl⟩,
   ⟨_, rfl, rfl, rfl, rfl, rfl, rfl, rfl, rfl, rfl, rfl⟩⟩

/-- Python truthiness of an `Optional[str]`: `None` and `""` are falsy. -/
def pyTruthyOptStr : Option String → Bool
  | none => false
  | some s => !(s == "")

/-- `AuthBase.is_token_valid` (`auth.py` lines 23–27): `if not
self.access_token or not self.token_expiry: return False; return
datetime.utcnow() < self.token_expiry`. Python truthiness makes both
`None` and the empty string falsy; a `datetime` is always truthy. -/
def is_token_valid (access_token : Option String) (token_expiry : Option ℤ)
    (now : ℤ) : Bool :=
  if !pyTruthyOptStr access_token || !token_expiry.isSome then false
  else decide (now < token_expiry.getD 0)

/-- C8 counterexample: an empty-string access token is present
(`isSome`) with an unexpired expiry, yet the validity check returns
`false` — Python's falsiness of `""` narrows the claim's "token present". -/
theorem empty_token_invalid :
    is_token_valid (some "") (some 10) 0 = false
    ∧ (some "" : Option String).isSome = true
    ∧ ((0 : ℤ) < 10) :=
  ⟨rfl, rfl, by norm_num⟩

/-- C8 (amended): the validity check returns `true` iff a non-empty access
token is present, an expiry is set, and the current time is strictly
before it; in particular a credential with no access token is invalid
regardless of its expiry. -/
theorem is_token_valid_iff (tok : Option String) (expiry : Option ℤ)
    (now : ℤ) :
    is_token_valid tok expiry now = true ↔
      (∃ s, tok = some s ∧ s ≠ "") ∧ (∃ e, expiry = some e ∧ now < e) := by
  cases tok with
  | none => simp [is_token_valid, pyTruthyOptStr]
  | some s =>
    by_cases hs : s = ""
    · subst hs
      simp [is_token_valid, pyTruthyOptStr]
    · cases expiry with
      | none => simp [is_token_valid, pyTruthyOptStr, hs]
      | some e => simp [is_token_valid, pyTruthyOptStr, hs]
